import Mathlib

/-!
Verification of the webhook-receiver durable delivery core (dispatcher store,
circuit breaker and inspector read path) against its specification.

The Rust source is shallowly embedded: each SQL transaction becomes a pure
function from a database value to a database value (plus a result), executed
sequentially, which models the serialized transactions of the single-writer
SQLite backend.  Modelling conventions:

* Timestamps.  All persisted timestamps are RFC3339 UTC strings; the strings
  the core itself writes come from `format_utc`, which renders whole seconds
  (`SecondsFormat::Secs`, i.e. the sub-second part is truncated).  A stored
  timestamp string is modelled by `TS`: either `TS.valid t` for a parseable
  string denoting the instant `t` (a natural number of milliseconds), or
  `TS.junk s` for a string `chrono`'s RFC3339 parser rejects.  `format_utc`
  is modelled as truncation to the whole second.  SQL `<=` between two
  canonically formatted strings agrees with the order of the instants; the
  lexicographic position of a junk string is not meaningful, so the model
  makes junk compare as never `<=` and theorems that depend on stored
  comparisons restrict to well-formed (valid) timestamps.
* Identifiers.  UUID strings are compared (SQL `<`, `=`) and tested for
  equality only; they are modelled as naturals (an order-embedding of the
  finitely many strings in any database value).
* JSON.  Serialized header maps are carried as opaque strings; the
  (de)serialization round-trip on well-formed stored text is the identity and
  serializing a string-to-string map cannot fail, so it is modelled as such.
* Un-ordered SELECTs.  A query with no ORDER BY returns rows in table
  (insertion) order, which models SQLite's scan order.
* The f64 arithmetic of `compute_cooldown_ms` is modelled over `ℚ`, with
  `.round()` as half-up rounding and the `as u64` cast of a negative value
  saturating at zero.
-/

/-- A persisted timestamp string: `valid t` is a parseable RFC3339 string for
instant `t` (in milliseconds), `junk s` is a string that fails RFC3339
parsing. -/
inductive TS where
  | valid : Nat → TS
  | junk : String → TS
deriving DecidableEq

/-- Model of `chrono::DateTime::parse_from_rfc3339` on a stored string. -/
def TS.parseRfc3339 : TS → Option Nat
  | .valid t => some t
  | .junk _ => none

/-- Model of the SQL string comparison `ts <= bound` where `bound` is a
canonically formatted timestamp.  A junk string has no meaningful position in
the lexicographic order; the model fixes it as never `<=`. -/
def TS.sqlLe : TS → Nat → Bool
  | .valid t, bound => t ≤ bound
  | .junk _, _ => false

/-- Model of `format_utc` (`to_rfc3339_opts(SecondsFormat::Secs, true)`):
the sub-second part of the instant is truncated. -/
def format_utc (t : Nat) : Nat := 1000 * (t / 1000)

/-- SQL predicate `col IS NOT NULL AND col <= bound`. -/
def optTSLe (o : Option TS) (bound : Nat) : Bool :=
  match o with
  | some ts => ts.sqlLe bound
  | none => false

/-- SQL predicate `col IS NULL OR col <= bound`. -/
def optTSNullOrLe (o : Option TS) (bound : Nat) : Bool :=
  match o with
  | some ts => ts.sqlLe bound
  | none => true

/-- `WebhookEventStatus` (`types/webhook_event.rs`); persisted as lowercase
snake-case strings, parsed back by `parse_status`. -/
inductive WebhookEventStatus where
  | Pending
  | InFlight
  | Requeued
  | Delivered
  | Dead
  | Paused
deriving DecidableEq

/-- `TargetCircuitStatus` (`types/target_circuit_state.rs`). -/
inductive TargetCircuitStatus where
  | Closed
  | Open
deriving DecidableEq

/-- `ReportOutcome` (`types/dispatcher.rs`). -/
inductive ReportOutcome where
  | Delivered
  | Retry
  | Dead
deriving DecidableEq

/-- `WebhookAttemptErrorKind` (`types/webhook_attempt_log.rs`). -/
inductive WebhookAttemptErrorKind where
  | Timeout
  | Network
  | InvalidResponse
  | Unexpected
deriving DecidableEq

/-- `StoreError` (`dispatcher/store.rs` and `inspector/store.rs`); the
underlying `sqlx::Error` of the `Db` variant is carried as its message. -/
inductive StoreError where
  | Db : String → StoreError
  | Conflict : String → StoreError
  | NotFound : String → StoreError
  | Parse : String → StoreError
deriving DecidableEq

/-- A row of `webhook_events`. -/
structure EventRow where
  id : Nat
  endpoint_id : Nat
  replayed_from_event_id : Option Nat
  provider : String
  headers : String
  payload : String
  status : WebhookEventStatus
  attempts : Int
  received_at : Nat
  next_attempt_at : Option TS
  lease_expires_at : Option TS
  leased_by : Option String
  last_error : Option String
deriving DecidableEq

/-- A row of `target_circuit_states`. -/
structure CircuitRow where
  endpoint_id : Nat
  state : TargetCircuitStatus
  open_until : Option TS
  consecutive_failures : Int
  last_failure_at : Option TS
deriving DecidableEq

/-- A row of `webhook_attempt_logs`. -/
structure AttemptLogRow where
  id : Nat
  event_id : Nat
  attempt_no : Int
  started_at : String
  finished_at : String
  request_headers : String
  request_body : String
  response_status : Option Int
  response_headers : Option String
  response_body : Option String
  error_kind : Option String
  error_message : Option String
deriving DecidableEq

/-- The database: `endpoints` (id and target_url), `webhook_events`,
`target_circuit_states` and `webhook_attempt_logs`, each in table order. -/
structure DB where
  endpoints : List (Nat × String)
  events : List EventRow
  circuits : List CircuitRow
  attempt_logs : List AttemptLogRow
deriving DecidableEq

/-- `LEFT JOIN target_circuit_states c ON c.endpoint_id = e.endpoint_id`
(at most one row: `endpoint_id` is the primary key). -/
def circuit_for (circuits : List CircuitRow) (epid : Nat) : Option CircuitRow :=
  circuits.find? (fun c => c.endpoint_id == epid)

/-- `LeaseRequest` (`types/dispatcher.rs`). -/
structure LeaseRequest where
  limit : Int
  lease_ms : Int
  worker_id : String
deriving DecidableEq

/-- `LeasedEvent` (`types/dispatcher.rs`): the hydrated row joined with the
endpoint's `target_url` and the circuit snapshot.  `lease_expires_at`
duplicates the event row's (always-set) field. -/
structure LeasedEvent where
  event : EventRow
  target_url : String
  lease_expires_at : Option TS
  circuit : Option CircuitRow
deriving DecidableEq

/-- First statement of `lease_events`: requeue an `in_flight` row whose lease
has expired, clearing the lease fields. -/
def requeue_expired_row (now_s : Nat) (e : EventRow) : EventRow :=
  if e.status = .InFlight ∧ optTSLe e.lease_expires_at now_s then
    { e with status := .Requeued, lease_expires_at := none, leased_by := none }
  else e

/-- Second statement of `lease_events`: close an `open` circuit whose
`open_until` has passed, clearing `open_until` (and only it). -/
def half_open_row (now_s : Nat) (c : CircuitRow) : CircuitRow :=
  if c.state = .Open ∧ optTSLe c.open_until now_s then
    { c with state := .Closed, open_until := none }
  else c

/-- The two maintenance UPDATEs at the start of the `lease_events`
transaction. -/
def lease_maintain (db : DB) (now_s : Nat) : DB :=
  { db with
    events := db.events.map (requeue_expired_row now_s),
    circuits := db.circuits.map (half_open_row now_s) }

/-- The WHERE clause of the `eligible` CTE in `lease_events`: status pending
or requeued, schedule reached, no live lease, and the endpoint's circuit
absent, closed, or open with `open_until <= now`. -/
def eligible_row (circuits : List CircuitRow) (now_s : Nat) (e : EventRow) : Bool :=
  (decide (e.status = .Pending) || decide (e.status = .Requeued))
    && optTSNullOrLe e.next_attempt_at now_s
    && optTSNullOrLe e.lease_expires_at now_s
    && (match circuit_for circuits e.endpoint_id with
        | none => true
        | some c =>
          decide (c.state = .Closed)
            || (decide (c.state = .Open) && optTSLe c.open_until now_s))

/-- The `eligible` CTE: ids of eligible rows, ordered by `received_at ASC`,
limited to `limit` (SQL ties in `received_at` are broken by scan order,
modelled by the stability of the sort). -/
def eligible_ids (db : DB) (req : LeaseRequest) (now_s : Nat) : List Nat :=
  (((List.insertionSort (fun a b => a.received_at ≤ b.received_at)
      (db.events.filter (eligible_row db.circuits now_s))).take
      req.limit.toNat).map (fun e => e.id))

/-- The predicate the claiming UPDATE re-checks in its own WHERE clause (the
circuit clause of the CTE is not re-checked there). -/
def recheck_row (now_s : Nat) (e : EventRow) : Bool :=
  (decide (e.status = .Pending) || decide (e.status = .Requeued))
    && optTSNullOrLe e.next_attempt_at now_s
    && optTSNullOrLe e.lease_expires_at now_s

/-- The claiming UPDATE applied to one row: a row whose id was selected and
that still passes the re-check becomes `in_flight` with the new lease. -/
def claim_row (ids : List Nat) (now_s lease_exp : Nat) (worker : String)
    (e : EventRow) : EventRow :=
  if ids.contains e.id ∧ recheck_row now_s e then
    { e with
      lease_expires_at := some (.valid lease_exp),
      leased_by := some worker,
      status := .InFlight }
  else e

/-- Ids the claiming UPDATE RETURNING clause yields: rows satisfying the
UPDATE's WHERE clause. -/
def claimed_ids (db : DB) (elig : List Nat) (now_s : Nat) : List Nat :=
  (db.events.filter (fun e => elig.contains e.id && recheck_row now_s e)).map
    (fun e => e.id)

/-- The hydration SELECT of `lease_events`: rows with the claimed ids joined
with `endpoints` (INNER) and `target_circuit_states` (LEFT).  The statement
has no ORDER BY, so rows come back in table order. -/
def lease_hydrate (db : DB) (ids : List Nat) : List LeasedEvent :=
  (db.events.filter (fun e => ids.contains e.id)).filterMap (fun e =>
    match db.endpoints.find? (fun ep => ep.1 == e.endpoint_id) with
    | none => none
    | some ep =>
      some { event := e, target_url := ep.2,
             lease_expires_at := e.lease_expires_at,
             circuit := circuit_for db.circuits e.endpoint_id })

/-- `lease_events` (`dispatcher/store.rs`): one transaction taking the
database and the call instant `now` to the committed database and the
returned list.  (The `TryFrom<LeaseRow>` conversion parses headers and
requires `lease_expires_at` to be set; for claimed rows the UPDATE has just
set both fields from well-formed values, so the conversion is modelled as
total.) -/
def lease_events (db : DB) (req : LeaseRequest) (now : Nat) :
    DB × List LeasedEvent :=
  let now_s := format_utc now
  let lease_exp := format_utc ((now : Int) + req.lease_ms).toNat
  let s1 := lease_maintain db now_s
  let elig := eligible_ids s1 req now_s
  let claimed := claimed_ids s1 elig now_s
  let s2 := { s1 with
    events := s1.events.map (claim_row elig now_s lease_exp req.worker_id) }
  (s2, lease_hydrate s2 claimed)

/-- `DispatcherConfig` (`dispatcher/config.rs`); `circuit_failure_threshold`
and `max_attempts` are clamped to at least 1 when read from the environment,
the cooldown fields are not.  The `f64` factor is modelled over `ℚ`. -/
structure DispatcherConfig where
  circuit_failure_threshold : Nat
  circuit_cooldown_base_ms : Nat
  circuit_cooldown_factor : ℚ
  circuit_cooldown_max_ms : Nat
  max_attempts : Nat

/-- The validated defaults of `DispatcherConfig::default()`. -/
def DispatcherConfig.default : DispatcherConfig :=
  { circuit_failure_threshold := 3
    circuit_cooldown_base_ms := 30000
    circuit_cooldown_factor := 2
    circuit_cooldown_max_ms := 600000
    max_attempts := 5 }

/-- Rust `f64::round()` followed by `as u64`: half-up rounding, negative
values saturating at zero. -/
def round_as_u64 (q : ℚ) : Nat := (Int.floor (q + 1/2)).toNat

/-- `compute_cooldown_ms` (`dispatcher/store.rs`): zero below the threshold,
otherwise `min(base * factor^(failures - threshold), max)` rounded to the
nearest millisecond. -/
def compute_cooldown_ms (config : DispatcherConfig)
    (consecutive_failures : Int) : Nat :=
  if consecutive_failures < (config.circuit_failure_threshold : Int) then 0
  else
    let exponent : Nat :=
      (consecutive_failures - (config.circuit_failure_threshold : Int)).toNat
    let cooldown : ℚ :=
      (config.circuit_cooldown_base_ms : ℚ)
        * config.circuit_cooldown_factor ^ exponent
    round_as_u64 (min cooldown (config.circuit_cooldown_max_ms : ℚ))

/-- SQL upsert `INSERT ... ON CONFLICT(endpoint_id) DO UPDATE SET ...` where
every column is overwritten by the excluded row. -/
def upsert_circuit (circuits : List CircuitRow) (row : CircuitRow) :
    List CircuitRow :=
  if circuits.any (fun c => c.endpoint_id == row.endpoint_id) then
    circuits.map (fun c => if c.endpoint_id == row.endpoint_id then row else c)
  else circuits ++ [row]

/-- `update_circuit_on_failure` (`dispatcher/store.rs`): no-op unless
`retryable`; otherwise increment `consecutive_failures`, open the circuit iff
the threshold is reached, with `open_until = format_utc (now + cooldown)`.
Returns the circuit table and the snapshot the function reports back. -/
def update_circuit_on_failure (circuits : List CircuitRow)
    (config : DispatcherConfig) (endpoint_id : Nat) (now : Nat)
    (retryable : Bool) : List CircuitRow × Option CircuitRow :=
  if !retryable then (circuits, none)
  else
    let current_failures :=
      ((circuit_for circuits endpoint_id).map
        (fun c => c.consecutive_failures)).getD 0
    let consecutive_failures := current_failures + 1
    let cooldown_ms := compute_cooldown_ms config consecutive_failures
    let should_open :=
      decide ((config.circuit_failure_threshold : Int) ≤ consecutive_failures)
    let open_until : Option TS :=
      if should_open then some (.valid (format_utc (now + cooldown_ms)))
      else none
    let state : TargetCircuitStatus := if should_open then .Open else .Closed
    let row : CircuitRow :=
      { endpoint_id := endpoint_id, state := state, open_until := open_until,
        consecutive_failures := consecutive_failures,
        last_failure_at := some (.valid (format_utc now)) }
    (upsert_circuit circuits row, some row)

/-- `compute_next_attempt_at` (`dispatcher/store.rs`): exponential backoff
`2^(attempt_no - 1)` seconds (exponent capped at 31, delay capped at 3600 s),
formatted with `format_utc`. -/
def compute_next_attempt_at (now : Nat) (attempt_no : Int) : Nat :=
  let a := max attempt_no 1
  let exponent := (min (a - 1) 31).toNat
  let delay_secs := min (2 ^ exponent) 3600
  format_utc (now + 1000 * delay_secs)

/-- `normalize_rfc3339_utc`: parse the caller-supplied timestamp or fail with
a `Parse` error; re-render through `format_utc`. -/
def normalize_rfc3339_utc (value : TS) : Except StoreError TS :=
  match value.parseRfc3339 with
  | none => .error (.Parse "invalid next_attempt_at")
  | some t => .ok (.valid (format_utc t))

/-- `error_kind_to_str` (`dispatcher/store.rs`). -/
def error_kind_to_str : WebhookAttemptErrorKind → String
  | .Timeout => "timeout"
  | .Network => "network"
  | .InvalidResponse => "invalid_response"
  | .Unexpected => "unexpected"

/-- `ReportAttempt` (`types/dispatcher.rs`); header maps carried in their
serialized form. -/
structure ReportAttempt where
  started_at : String
  finished_at : String
  request_headers : String
  request_body : String
  response_status : Option Int
  response_headers : Option String
  response_body : Option String
  error_kind : Option WebhookAttemptErrorKind
  error_message : Option String
deriving DecidableEq

/-- `ReportRequest` (`types/dispatcher.rs`); the optional caller-supplied
`next_attempt_at` string is a timestamp string (`TS`). -/
structure ReportRequest where
  worker_id : String
  event_id : Nat
  outcome : ReportOutcome
  retryable : Bool
  next_attempt_at : Option TS
  attempt : ReportAttempt
deriving DecidableEq

/-- `ReportResult` (`dispatcher/store.rs`). -/
structure ReportResult where
  circuit : Option CircuitRow
  final_outcome : ReportOutcome
deriving DecidableEq

/-- The `last_error` prefix written when an exhausted retry is coerced to
dead. -/
def max_attempts_msg (config : DispatcherConfig) (req : ReportRequest) :
    String :=
  "max_attempts_exceeded (" ++ toString config.max_attempts ++ "): "
    ++ (req.attempt.error_message.getD "unknown")

/-- The part of `report_delivery` after the lease-validation block: compute
the final outcome with the retry budget, apply it to the event row (the
UPDATEs re-assert `leased_by = worker_id`), update or reset the circuit, and
append the attempt log.  `attempt_id` stands for the freshly generated
attempt UUID. -/
def apply_report (db : DB) (config : DispatcherConfig) (req : ReportRequest)
    (row : EventRow) (attempt_id : Nat) (now : Nat) :
    Except StoreError (DB × ReportResult) := do
  let error_kind := req.attempt.error_kind.map error_kind_to_str
  let attempt_no := row.attempts + 1
  let exhausted := decide ((config.max_attempts : Int) ≤ attempt_no)
  let final_outcome :=
    if exhausted && decide (req.outcome = .Retry) then ReportOutcome.Dead
    else req.outcome
  let last_error_for_exhausted :=
    if exhausted && decide (req.outcome = .Retry) then
      some (max_attempts_msg config req)
    else none
  let affected := db.events.any (fun e =>
    e.id == req.event_id && e.leased_by == some req.worker_id)
  let log : AttemptLogRow :=
    { id := attempt_id, event_id := req.event_id, attempt_no := attempt_no,
      started_at := req.attempt.started_at,
      finished_at := req.attempt.finished_at,
      request_headers := req.attempt.request_headers,
      request_body := req.attempt.request_body,
      response_status := req.attempt.response_status,
      response_headers := req.attempt.response_headers,
      response_body := req.attempt.response_body,
      error_kind := error_kind,
      error_message := req.attempt.error_message }
  match final_outcome with
  | .Delivered =>
    let events := db.events.map (fun e =>
      if e.id == req.event_id && e.leased_by == some req.worker_id then
        { e with status := .Delivered, attempts := e.attempts + 1,
                 next_attempt_at := none, lease_expires_at := none,
                 leased_by := none, last_error := none }
      else e)
    if !affected then .error (.Conflict "lease_not_owned")
    else
      let had_circuit :=
        db.circuits.any (fun c => c.endpoint_id == row.endpoint_id)
      let circuits := db.circuits.map (fun c =>
        if c.endpoint_id == row.endpoint_id then
          { c with state := .Closed, open_until := none,
                   consecutive_failures := 0, last_failure_at := none }
        else c)
      let circuit_state : Option CircuitRow :=
        if had_circuit then
          some { endpoint_id := row.endpoint_id, state := .Closed,
                 open_until := none, consecutive_failures := 0,
                 last_failure_at := none }
        else none
      .ok ({ db with events := events, circuits := circuits,
                     attempt_logs := db.attempt_logs ++ [log] },
           { circuit := circuit_state, final_outcome := final_outcome })
  | .Retry =>
    let next_attempt_at ←
      match req.next_attempt_at with
      | some value => normalize_rfc3339_utc value
      | none => .ok (TS.valid (compute_next_attempt_at now attempt_no))
    let last_error := req.attempt.error_message.orElse (fun _ => error_kind)
    let events := db.events.map (fun e =>
      if e.id == req.event_id && e.leased_by == some req.worker_id then
        { e with status := .Pending, attempts := e.attempts + 1,
                 next_attempt_at := some next_attempt_at,
                 lease_expires_at := none, leased_by := none,
                 last_error := last_error }
      else e)
    if !affected then .error (.Conflict "lease_not_owned")
    else
      let (circuits, circuit_state) := update_circuit_on_failure db.circuits
        config row.endpoint_id now req.retryable
      .ok ({ db with events := events, circuits := circuits,
                     attempt_logs := db.attempt_logs ++ [log] },
           { circuit := circuit_state, final_outcome := final_outcome })
  | .Dead =>
    let last_error := (last_error_for_exhausted.orElse
      (fun _ => req.attempt.error_message)).orElse (fun _ => error_kind)
    let events := db.events.map (fun e =>
      if e.id == req.event_id && e.leased_by == some req.worker_id then
        { e with status := .Dead, attempts := e.attempts + 1,
                 next_attempt_at := none, lease_expires_at := none,
                 leased_by := none, last_error := last_error }
      else e)
    if !affected then .error (.Conflict "lease_not_owned")
    else
      let (circuits, circuit_state) := update_circuit_on_failure db.circuits
        config row.endpoint_id now req.retryable
      .ok ({ db with events := events, circuits := circuits,
                     attempt_logs := db.attempt_logs ++ [log] },
           { circuit := circuit_state, final_outcome := final_outcome })

/-- `report_delivery` (`dispatcher/store.rs`): load the event, validate lease
ownership and expiry, then apply the outcome.  An expiry string that fails
RFC3339 parsing skips the expiry check (`if let Ok(expires) = ...`).  An
`Except.error` models the rolled-back transaction. -/
def report_delivery (db : DB) (config : DispatcherConfig)
    (req : ReportRequest) (attempt_id : Nat) (now : Nat) :
    Except StoreError (DB × ReportResult) :=
  match db.events.find? (fun e => e.id == req.event_id) with
  | none => .error (.NotFound "event not found")
  | some row =>
    match row.leased_by with
    | none => .error (.Conflict "lease_missing")
    | some leased_by =>
      if leased_by ≠ req.worker_id then .error (.Conflict "lease_not_owned")
      else
        match row.lease_expires_at with
        | none => .error (.Conflict "lease_missing")
        | some ts =>
          match ts.parseRfc3339 with
          | some expires =>
            if expires ≤ now then .error (.Conflict "lease_expired")
            else apply_report db config req row attempt_id now
          | none => apply_report db config req row attempt_id now

/-- The database state after a `report_delivery` call: the committed state on
success, the unchanged state on any error (the transaction rolls back). -/
def report_delivery_committed (db : DB) (config : DispatcherConfig)
    (req : ReportRequest) (attempt_id : Nat) (now : Nat) : DB :=
  match report_delivery db config req attempt_id now with
  | .ok (db', _) => db'
  | .error _ => db

/-- `InspectorCursor` (`inspector/store.rs`): a `(received_at, id)` keyset
pair. -/
structure InspectorCursor where
  received_at : Nat
  id : Nat
deriving DecidableEq

/-- `ListEventsParams` (`inspector/store.rs`); the transport clamps `limit`
to `[1, 200]` and the store trusts it. -/
structure ListEventsParams where
  limit : Int
  before : Option InspectorCursor
  status : Option WebhookEventStatus
  endpoint_id : Option Nat
  provider : Option String
deriving DecidableEq

/-- `WebhookEventListItem` (`types/inspector.rs`), carrying the summarized
row, the joined `target_url` and the circuit snapshot. -/
structure WebhookEventListItem where
  event : EventRow
  target_url : String
  circuit : Option CircuitRow
deriving DecidableEq

/-- `ListEventsResult` (`inspector/store.rs`). -/
structure ListEventsResult where
  events : List WebhookEventListItem
  next_before : Option InspectorCursor
deriving DecidableEq

/-- The WHERE clause built by `list_events`: optional status, endpoint and
provider equality filters, and the keyset condition
`received_at < before.received_at OR (received_at = before.received_at AND id < before.id)`. -/
def list_events_filter (params : ListEventsParams) (e : EventRow) : Bool :=
  (match params.status with
   | none => true
   | some s => decide (e.status = s))
    && (match params.endpoint_id with
        | none => true
        | some epid => e.endpoint_id == epid)
    && (match params.provider with
        | none => true
        | some p => e.provider == p)
    && (match params.before with
        | none => true
        | some cursor =>
          decide (e.received_at < cursor.received_at)
            || (decide (e.received_at = cursor.received_at)
                && decide (e.id < cursor.id)))

/-- The rows the `list_events` query matches: filtered events INNER-joined
with their endpoint row, paired with the joined `target_url`, in table
order. -/
def list_events_matching (db : DB) (params : ListEventsParams) :
    List (EventRow × String) :=
  db.events.filterMap (fun e =>
    if list_events_filter params e then
      (db.endpoints.find? (fun ep => ep.1 == e.endpoint_id)).map
        (fun ep => (e, ep.2))
    else none)

/-- `ORDER BY e.received_at DESC, e.id DESC` as a total order on the joined
rows. -/
def list_events_desc (a b : EventRow × String) : Prop :=
  b.1.received_at < a.1.received_at
    ∨ (a.1.received_at = b.1.received_at ∧ b.1.id ≤ a.1.id)

instance : DecidableRel list_events_desc := fun a b => by
  unfold list_events_desc
  exact inferInstance

/-- The `LIMIT limit + 1` fetch of `list_events`, in
`received_at DESC, id DESC` order. -/
def list_events_rows (db : DB) (params : ListEventsParams) :
    List (EventRow × String) :=
  (List.insertionSort list_events_desc (list_events_matching db params)).take
    (params.limit + 1).toNat

/-- `rows.len() > params.limit as usize`: the extra fetched row proves a next
page exists. -/
def list_events_has_more (db : DB) (params : ListEventsParams) : Bool :=
  decide (params.limit.toNat < (list_events_rows db params).length)

/-- The rows `list_events` emits: all fetched rows, or only `limit` of them
when the extra row is present. -/
def list_events_emitted (db : DB) (params : ListEventsParams) :
    List (EventRow × String) :=
  (list_events_rows db params).take
    (if list_events_has_more db params then params.limit.toNat
     else (list_events_rows db params).length)

/-- One `WebhookEventListItem` from a joined row (LEFT-joined with the
circuit). -/
def list_events_item (db : DB) (r : EventRow × String) :
    WebhookEventListItem :=
  { event := r.1, target_url := r.2,
    circuit := circuit_for db.circuits r.1.endpoint_id }

/-- `list_events` (`inspector/store.rs`): fetch `limit + 1` rows in
`received_at DESC, id DESC` order, emit at most `limit` of them, and return
the cursor of the last emitted row iff an extra row proved a next page
exists. -/
def list_events (db : DB) (params : ListEventsParams) : ListEventsResult :=
  { events := (list_events_emitted db params).map (list_events_item db),
    next_before :=
      if list_events_has_more db params then
        (list_events_emitted db params).getLast?.map (fun r =>
          { received_at := r.1.received_at, id := r.1.id : InspectorCursor })
      else none }

/-- The SQL text of the attempts query in `list_attempts`
(`inspector/store.rs`).  In the source it is a Rust RAW string (`r"..."`), so
the line-continuation backslashes at each line end are literal characters of
the statement text. -/
def list_attempts_sql : String :=
  "\n        SELECT \\\n            e.id AS event_id, \\\n            a.id AS attempt_id, \\\n            a.attempt_no AS attempt_no, \\\n            a.started_at AS started_at, \\\n            a.finished_at AS finished_at, \\\n            a.request_headers AS request_headers, \\\n            a.request_body AS request_body, \\\n            a.response_status AS response_status, \\\n            a.response_headers AS response_headers, \\\n            a.response_body AS response_body, \\\n            a.error_kind AS error_kind, \\\n            a.error_message AS error_message \\\n        FROM webhook_events e\n        LEFT JOIN webhook_attempt_logs a ON a.event_id = e.id\n        WHERE e.id = ?\n        ORDER BY a.started_at ASC, a.attempt_no ASC\n        "

/-- The SQL text of the source-row query in `replay_event`
(`inspector/store.rs`); also a raw string whose backslashes are literal. -/
def replay_source_sql : String :=
  "\n        SELECT \\\n            id, \\\n            endpoint_id, \\\n            provider, \\\n            headers, \\\n            payload, \\\n            status, \\\n            received_at, \\\n            lease_expires_at \\\n        FROM webhook_events\n        WHERE id = ?\n        "

/-- SQLite's tokenizer has no backslash token: preparing a statement whose
text contains a bare backslash (neither query here quotes one inside a
string literal) fails with `unrecognized token: "\"`, surfaced by sqlx as a
database error. -/
def sqlite_prepare_ok (sql : String) : Bool := !(sql.data.contains '\\')

/-- `list_attempts` (`inspector/store.rs`): LEFT-join the event with its
attempt logs so that an existing event with no attempts yields one row of
NULLs (an empty result means the event is absent).  The first step is
preparing `list_attempts_sql`; when that fails the call returns the database
error. -/
def list_attempts (db : DB) (event_id : Nat) :
    Except StoreError (List AttemptLogRow) :=
  if !(sqlite_prepare_ok list_attempts_sql) then
    .error (.Db "unrecognized token: \"\\\"")
  else
    match db.events.find? (fun e => e.id == event_id) with
    | none => .error (.NotFound "event not found")
    | some _ =>
      .ok (List.insertionSort
        (fun a b => a.started_at < b.started_at
          ∨ (a.started_at = b.started_at ∧ a.attempt_no ≤ b.attempt_no))
        (db.attempt_logs.filter (fun a => a.event_id == event_id)))

/-- `WebhookEventSummary` for the replay response (`types/inspector.rs`). -/
structure WebhookEventSummary where
  id : Nat
  endpoint_id : Nat
  replayed_from_event_id : Option Nat
  provider : String
  status : WebhookEventStatus
  attempts : Int
  received_at : Nat
  next_attempt_at : Option TS
  last_error : Option String
deriving DecidableEq

/-- `ReplayEventResponse` (`types/inspector.rs`). -/
structure ReplayEventResponse where
  event : WebhookEventSummary
  circuit : Option CircuitRow
deriving DecidableEq

/-- `replay_event` (`inspector/store.rs`): load the source row, reject an
`in_flight` source with a live lease, insert a clone as a fresh pending
event (`new_id` stands for the generated UUID), optionally reset the
endpoint's circuit, and return the new summary with the circuit snapshot.
The first step is preparing `replay_source_sql`; when that fails the call
returns the database error and the transaction rolls back. -/
def replay_event (db : DB) (event_id : Nat) (reset_circuit : Bool)
    (new_id : Nat) (now : Nat) : Except StoreError (DB × ReplayEventResponse) :=
  if !(sqlite_prepare_ok replay_source_sql) then
    .error (.Db "unrecognized token: \"\\\"")
  else do
    let row ← match db.events.find? (fun e => e.id == event_id) with
      | none => Except.error (.NotFound "event not found")
      | some r => Except.ok r
    if row.status = .InFlight then
      match row.lease_expires_at with
      | none => Except.error (.Conflict "lease_missing")
      | some ts =>
        match ts.parseRfc3339 with
        | none => Except.error (.Parse "invalid lease_expires_at")
        | some expires =>
          if now < expires then Except.error (.Conflict "lease_active")
          else Except.ok ()
    else Except.ok ()
    let new_event : EventRow :=
      { id := new_id, endpoint_id := row.endpoint_id,
        replayed_from_event_id := some event_id, provider := row.provider,
        headers := row.headers, payload := row.payload, status := .Pending,
        attempts := 0, received_at := row.received_at,
        next_attempt_at := none, lease_expires_at := none, leased_by := none,
        last_error := none }
    let circuits :=
      if reset_circuit then
        db.circuits.map (fun c =>
          if c.endpoint_id == row.endpoint_id then
            { c with state := .Closed, open_until := none,
                     consecutive_failures := 0, last_failure_at := none }
          else c)
      else db.circuits
    let target_url ← match db.endpoints.find? (fun ep =>
        ep.1 == row.endpoint_id) with
      | none => Except.error (.NotFound "endpoint not found")
      | some ep => Except.ok ep.2
    let _ := target_url
    let summary : WebhookEventSummary :=
      { id := new_id, endpoint_id := row.endpoint_id,
        replayed_from_event_id := some event_id, provider := row.provider,
        status := .Pending, attempts := 0, received_at := row.received_at,
        next_attempt_at := none, last_error := none }
    .ok ({ db with events := db.events ++ [new_event], circuits := circuits },
         { event := summary, circuit := circuit_for circuits row.endpoint_id })

/-- Helper: mapping an id-preserving row transformer commutes with looking a
row up by id. -/
theorem find?_map_of_id_eq {g : EventRow → EventRow}
    (hg : ∀ e, (g e).id = e.id) (l : List EventRow) (i : Nat) :
    (l.map g).find? (fun e => e.id == i)
      = (l.find? (fun e => e.id == i)).map g := by
  induction l with
  | nil => rfl
  | cons a t ih =>
    simp only [List.map_cons, List.find?_cons]
    rw [hg a]
    cases h : (a.id == i) with
    | true => simp
    | false => simpa using ih

/-- C8: for every existing event that has zero `webhook_attempt_logs` rows,
`list_attempts` succeeds with an empty attempts list.  The code violates
this: its query text is a Rust raw string in which the line-continuation
backslashes are literal, SQLite's tokenizer rejects the bare backslash, and
therefore every `list_attempts` call — including one for an existing event
with zero attempts — returns a `Db` error instead of `Ok []`. -/
theorem C8_list_attempts_always_db_error (db : DB) (event_id : Nat) :
    list_attempts db event_id
      = .error (.Db "unrecognized token: \"\\\"") := by
  have h : sqlite_prepare_ok list_attempts_sql = false := by decide
  simp [list_attempts, h]

/-- C5: `replay_event` never modifies the source row and on success inserts
exactly one fresh pending clone.  The code violates the success half: the
source-row query text is a Rust raw string with literal backslashes, SQLite
rejects it, and every `replay_event` call returns a `Db` error before any
insert (the transaction rolls back, so no call ever succeeds or inserts
anything). -/
theorem C5_replay_event_always_db_error (db : DB) (event_id : Nat)
    (reset_circuit : Bool) (new_id now : Nat) :
    replay_event db event_id reset_circuit new_id now
      = .error (.Db "unrecognized token: \"\\\"") := by
  have h : sqlite_prepare_ok replay_source_sql = false := by decide
  simp [replay_event, h]

/-- Concrete database for the lease-ordering counterexample: two eligible
pending events on one endpoint, stored (table order) with the newer
`received_at` first. -/
def c2_db : DB :=
  { endpoints := [(10, "https://example.com/webhook")]
    events :=
      [{ id := 1, endpoint_id := 10, replayed_from_event_id := none,
         provider := "stripe", headers := "{}", payload := "a",
         status := .Pending, attempts := 0, received_at := 5000,
         next_attempt_at := none, lease_expires_at := none,
         leased_by := none, last_error := none },
       { id := 2, endpoint_id := 10, replayed_from_event_id := none,
         provider := "stripe", headers := "{}", payload := "b",
         status := .Pending, attempts := 0, received_at := 3000,
         next_attempt_at := none, lease_expires_at := none,
         leased_by := none, last_error := none }]
    circuits := []
    attempt_logs := [] }

/-- C2: the spec guarantees that the events returned by one lease call are in
`received_at` ascending order.  The code violates this: the `eligible` CTE
orders by `received_at ASC` only to pick which rows to claim, and the final
hydration SELECT has no ORDER BY, so the rows come back in table order.  On
`c2_db` (both events claimed in one call) the returned `received_at` values
are `[5000, 3000]`, which is not ascending. -/
theorem C2_lease_events_not_received_at_sorted :
    ((lease_events c2_db
        { limit := 2, lease_ms := 30000, worker_id := "worker-1" } 0).2.map
      (fun l => l.event.received_at)) = [5000, 3000] ∧
    ¬ List.Chain' (fun a b => a ≤ b)
      ((lease_events c2_db
          { limit := 2, lease_ms := 30000, worker_id := "worker-1" } 0).2.map
        (fun l => l.event.received_at)) := by
  have hmap : ((lease_events c2_db
      { limit := 2, lease_ms := 30000, worker_id := "worker-1" } 0).2.map
    (fun l => l.event.received_at)) = [5000, 3000] := by decide
  refine ⟨hmap, ?_⟩
  rw [hmap]
  intro hchain
  have := List.Chain'.rel_head hchain
  omega

/-- C10: when the stored `lease_expires_at` of the loaded event is present
but not parseable RFC3339, `report_delivery` silently skips the expiry check
(`if let Ok(expires) = parse(..)`) and proceeds to apply the outcome — it
does not return a `Parse` error or `Conflict("lease_expired")`.  Formally:
the call equals the post-validation continuation `apply_report`, and with a
`delivered` outcome it succeeds. -/
theorem C10_unparseable_lease_expiry_skipped (db : DB)
    (config : DispatcherConfig) (req : ReportRequest)
    (attempt_id now : Nat) (row : EventRow) (s : String)
    (hfind : db.events.find? (fun e => e.id == req.event_id) = some row)
    (hleased : row.leased_by = some req.worker_id)
    (hjunk : row.lease_expires_at = some (.junk s)) :
    report_delivery db config req attempt_id now
      = apply_report db config req row attempt_id now ∧
    (req.outcome = .Delivered →
      ∃ out, report_delivery db config req attempt_id now = .ok out) := by
  have hskip : report_delivery db config req attempt_id now
      = apply_report db config req row attempt_id now := by
    simp [report_delivery, hfind, hleased, hjunk, TS.parseRfc3339]
  refine ⟨hskip, fun hout => ?_⟩
  have hpred := List.find?_some hfind
  have haff : db.events.any (fun e =>
      e.id == req.event_id && e.leased_by == some req.worker_id) = true := by
    refine List.any_eq_true.mpr ⟨row, List.mem_of_find?_eq_some hfind, ?_⟩
    simp [hpred, hleased]
  rw [hskip]
  simp only [apply_report, hout]
  simp [haff]

/-- Concrete input witnessing C10: an in-flight event leased to `worker-1`
whose stored `lease_expires_at` is not parseable RFC3339. -/
def c10_event : EventRow :=
  { id := 7, endpoint_id := 10, replayed_from_event_id := none,
    provider := "stripe", headers := "{}", payload := "x",
    status := .InFlight, attempts := 0, received_at := 0,
    next_attempt_at := none, lease_expires_at := some (.junk "not-a-date"),
    leased_by := some "worker-1", last_error := none }

/-- Concrete database for the C10 witness. -/
def c10_db : DB :=
  { endpoints := [(10, "https://example.com/webhook")],
    events := [c10_event], circuits := [], attempt_logs := [] }

/-- Concrete delivered report for the C10 witness. -/
def c10_req : ReportRequest :=
  { worker_id := "worker-1", event_id := 7, outcome := .Delivered,
    retryable := false, next_attempt_at := none,
    attempt := { started_at := "2026-01-01T00:00:00Z",
                 finished_at := "2026-01-01T00:00:01Z",
                 request_headers := "{}", request_body := "{}",
                 response_status := some 200, response_headers := none,
                 response_body := none, error_kind := none,
                 error_message := none } }

/-- Witness for C10 at the concrete input above. -/
theorem C10_unparseable_lease_expiry_skipped_witness :
    (c10_db.events.find? (fun e => e.id == c10_req.event_id) = some c10_event
      ∧ c10_event.leased_by = some c10_req.worker_id
      ∧ c10_event.lease_expires_at = some (.junk "not-a-date")) ∧
    (report_delivery c10_db DispatcherConfig.default c10_req 1 0
        = apply_report c10_db DispatcherConfig.default c10_req c10_event 1 0 ∧
      (c10_req.outcome = .Delivered →
        ∃ out, report_delivery c10_db DispatcherConfig.default c10_req 1 0
          = .ok out)) :=
  ⟨⟨by decide, by decide, by decide⟩,
   C10_unparseable_lease_expiry_skipped c10_db DispatcherConfig.default
     c10_req 1 0 c10_event "not-a-date" (by decide) (by decide) (by decide)⟩

/-- C4: a report whose event exists but is not leased by the caller (null or
different `leased_by`) fails with a `Conflict` before any write; the
committed database is unchanged (every event field, the attempt logs and the
circuit rows keep their prior values because the transaction rolls back). -/
theorem C4_lease_ownership_conflict_leaves_state_unchanged (db : DB)
    (config : DispatcherConfig) (req : ReportRequest)
    (attempt_id now : Nat) (row : EventRow)
    (hfind : db.events.find? (fun e => e.id == req.event_id) = some row) :
    (row.leased_by = none →
      report_delivery db config req attempt_id now
        = .error (.Conflict "lease_missing")) ∧
    (∀ w, row.leased_by = some w → w ≠ req.worker_id →
      report_delivery db config req attempt_id now
        = .error (.Conflict "lease_not_owned")) ∧
    ((row.leased_by = none ∨
        ∃ w, row.leased_by = some w ∧ w ≠ req.worker_id) →
      report_delivery_committed db config req attempt_id now = db) := by
  refine ⟨fun hnone => ?_, fun w hw hne => ?_, fun hbad => ?_⟩
  · simp [report_delivery, hfind, hnone]
  · simp [report_delivery, hfind, hw, hne]
  · rcases hbad with hnone | ⟨w, hw, hne⟩
    · simp [report_delivery_committed, report_delivery, hfind, hnone]
    · simp [report_delivery_committed, report_delivery, hfind, hw, hne]

/-- Concrete input witnessing C4: an in-flight event leased to
`original-worker`, reported by `wrong-worker`. -/
def c4_event : EventRow :=
  { id := 3, endpoint_id := 10, replayed_from_event_id := none,
    provider := "stripe", headers := "{}", payload := "x",
    status := .InFlight, attempts := 0, received_at := 0,
    next_attempt_at := none, lease_expires_at := some (.valid 3600000),
    leased_by := some "original-worker", last_error := none }

/-- Concrete database for the C4 witness. -/
def c4_db : DB :=
  { endpoints := [(10, "https://example.com/webhook")],
    events := [c4_event], circuits := [], attempt_logs := [] }

/-- Concrete report from the wrong worker for the C4 witness. -/
def c4_req : ReportRequest :=
  { worker_id := "wrong-worker", event_id := 3, outcome := .Delivered,
    retryable := true, next_attempt_at := none,
    attempt := { started_at := "2026-01-01T00:00:00Z",
                 finished_at := "2026-01-01T00:00:01Z",
                 request_headers := "{}", request_body := "{}",
                 response_status := some 200, response_headers := none,
                 response_body := none, error_kind := none,
                 error_message := none } }

/-- Witness for C4 at the concrete input above. -/
theorem C4_lease_ownership_conflict_witness :
    (c4_db.events.find? (fun e => e.id == c4_req.event_id) = some c4_event) ∧
    ((c4_event.leased_by = none →
        report_delivery c4_db DispatcherConfig.default c4_req 1 0
          = .error (.Conflict "lease_missing")) ∧
      (∀ w, c4_event.leased_by = some w → w ≠ c4_req.worker_id →
        report_delivery c4_db DispatcherConfig.default c4_req 1 0
          = .error (.Conflict "lease_not_owned")) ∧
      ((c4_event.leased_by = none ∨
          ∃ w, c4_event.leased_by = some w ∧ w ≠ c4_req.worker_id) →
        report_delivery_committed c4_db DispatcherConfig.default c4_req 1 0
          = c4_db)) :=
  ⟨by decide,
   C4_lease_ownership_conflict_leaves_state_unchanged c4_db
     DispatcherConfig.default c4_req 1 0 c4_event (by decide)⟩

/-- C9: a lease call that claims zero events (the UPDATE's RETURNING list is
empty) still commits before returning the empty list, so the two maintenance
updates persist: expired in-flight leases are requeued with the lease fields
cleared, and timed-out open circuits are closed with `open_until` cleared
and `consecutive_failures` untouched. -/
theorem C9_empty_lease_commits_maintenance (db : DB) (req : LeaseRequest)
    (now : Nat)
    (hzero : claimed_ids (lease_maintain db (format_utc now))
      (eligible_ids (lease_maintain db (format_utc now)) req (format_utc now))
      (format_utc now) = []) :
    (lease_events db req now).1.events
      = db.events.map (requeue_expired_row (format_utc now)) ∧
    (lease_events db req now).1.circuits
      = db.circuits.map (half_open_row (format_utc now)) ∧
    (lease_events db req now).2 = [] ∧
    (∀ e : EventRow, e.status = .InFlight →
      ∀ t, e.lease_expires_at = some (.valid t) → t ≤ format_utc now →
        requeue_expired_row (format_utc now) e
          = { e with status := .Requeued, lease_expires_at := none,
                     leased_by := none }) ∧
    (∀ c : CircuitRow, c.state = .Open →
      ∀ t, c.open_until = some (.valid t) → t ≤ format_utc now →
        half_open_row (format_utc now) c
          = { c with state := .Closed, open_until := none }) := by
  have hfilter : (lease_maintain db (format_utc now)).events.filter
      (fun e => (eligible_ids (lease_maintain db (format_utc now)) req
        (format_utc now)).contains e.id
          && recheck_row (format_utc now) e) = [] := by
    have := hzero
    unfold claimed_ids at this
    exact List.map_eq_nil_iff.mp this
  have hnoclaim : ∀ e ∈ (lease_maintain db (format_utc now)).events,
      claim_row (eligible_ids (lease_maintain db (format_utc now)) req
        (format_utc now)) (format_utc now)
        (format_utc ((now : Int) + req.lease_ms).toNat) req.worker_id e = e := by
    intro e he
    have hfalse := List.filter_eq_nil_iff.mp hfilter e he
    unfold claim_row
    rw [if_neg]
    intro hcond
    obtain ⟨h1, h2⟩ := hcond
    rw [h1, h2] at hfalse
    simp at hfalse
  have hevents : (lease_events db req now).1.events
      = db.events.map (requeue_expired_row (format_utc now)) := by
    simp only [lease_events]
    calc ((lease_maintain db (format_utc now)).events.map
            (claim_row (eligible_ids (lease_maintain db (format_utc now)) req
              (format_utc now)) (format_utc now)
              (format_utc ((now : Int) + req.lease_ms).toNat) req.worker_id))
        = (lease_maintain db (format_utc now)).events.map id := by
          exact List.map_congr_left hnoclaim
      _ = (lease_maintain db (format_utc now)).events := List.map_id _
      _ = db.events.map (requeue_expired_row (format_utc now)) := rfl
  refine ⟨hevents, rfl, ?_, ?_, ?_⟩
  · simp only [lease_events, lease_hydrate, hzero]
    simp [List.filter_eq_nil_iff]
  · intro e hstatus t hts hle
    unfold requeue_expired_row
    rw [if_pos]
    exact ⟨hstatus, by simp [optTSLe, hts, TS.sqlLe, hle]⟩
  · intro c hstate t hts hle
    unfold half_open_row
    rw [if_pos]
    exact ⟨hstate, by simp [optTSLe, hts, TS.sqlLe, hle]⟩

/-- Concrete input witnessing C9: one in-flight event with an expired lease
but a future `next_attempt_at` (so it is requeued yet not claimable) and one
open circuit whose `open_until` has passed. -/
def c9_event : EventRow :=
  { id := 5, endpoint_id := 10, replayed_from_event_id := none,
    provider := "stripe", headers := "{}", payload := "x",
    status := .InFlight, attempts := 1, received_at := 0,
    next_attempt_at := some (.valid 999999000),
    lease_expires_at := some (.valid 5000),
    leased_by := some "worker-old", last_error := none }

/-- Concrete database for the C9 witness. -/
def c9_db : DB :=
  { endpoints := [(10, "https://example.com/webhook")],
    events := [c9_event],
    circuits := [{ endpoint_id := 10, state := .Open,
                   open_until := some (.valid 9000),
                   consecutive_failures := 3,
                   last_failure_at := some (.valid 1000) }],
    attempt_logs := [] }

/-- Concrete lease request for the C9 witness. -/
def c9_req : LeaseRequest :=
  { limit := 50, lease_ms := 30000, worker_id := "worker-new" }

/-- Witness for C9 at the concrete input above (now = 10000 ms). -/
theorem C9_empty_lease_commits_maintenance_witness :
    (claimed_ids (lease_maintain c9_db (format_utc 10000))
      (eligible_ids (lease_maintain c9_db (format_utc 10000)) c9_req
        (format_utc 10000)) (format_utc 10000) = []) ∧
    ((lease_events c9_db c9_req 10000).1.events
        = c9_db.events.map (requeue_expired_row (format_utc 10000)) ∧
      (lease_events c9_db c9_req 10000).1.circuits
        = c9_db.circuits.map (half_open_row (format_utc 10000)) ∧
      (lease_events c9_db c9_req 10000).2 = [] ∧
      (∀ e : EventRow, e.status = .InFlight →
        ∀ t, e.lease_expires_at = some (.valid t) → t ≤ format_utc 10000 →
          requeue_expired_row (format_utc 10000) e
            = { e with status := .Requeued, lease_expires_at := none,
                       leased_by := none }) ∧
      (∀ c : CircuitRow, c.state = .Open →
        ∀ t, c.open_until = some (.valid t) → t ≤ format_utc 10000 →
          half_open_row (format_utc 10000) c
            = { c with state := .Closed, open_until := none })) :=
  ⟨by decide, C9_empty_lease_commits_maintenance c9_db c9_req 10000 (by decide)⟩

/-- Helper: after an upsert, looking the endpoint up finds exactly the
upserted row. -/
theorem circuit_for_upsert (circuits : List CircuitRow) (row : CircuitRow) :
    circuit_for (upsert_circuit circuits row) row.endpoint_id = some row := by
  unfold upsert_circuit circuit_for
  by_cases hany : circuits.any (fun c => c.endpoint_id == row.endpoint_id) = true
  · rw [if_pos hany]
    induction circuits with
    | nil => simp at hany
    | cons a t ih =>
      simp only [List.map_cons, List.find?_cons]
      by_cases h : a.endpoint_id == row.endpoint_id
      · rw [if_pos h]
        simp
      · rw [if_neg h]
        have h' : (a.endpoint_id == row.endpoint_id) = false := by
          simpa using h
        rw [h']
        simp only [List.any_cons, h', Bool.false_or] at hany
        exact ih hany
  · rw [if_neg hany]
    rw [List.find?_append]
    have hnone : circuits.find? (fun c => c.endpoint_id == row.endpoint_id)
        = none := by
      rw [List.find?_eq_none]
      intro c hc hpred
      exact hany (List.any_eq_true.mpr ⟨c, hc, hpred⟩)
    rw [hnone]
    simp

/-- Helper: with base and max cooldowns at least one second and a factor at
least one, the computed cooldown at or above the threshold is at least one
second. -/
theorem compute_cooldown_ms_ge_1000 (config : DispatcherConfig) (cf : Int)
    (hbase : 1000 ≤ config.circuit_cooldown_base_ms)
    (hmax : 1000 ≤ config.circuit_cooldown_max_ms)
    (hfactor : 1 ≤ config.circuit_cooldown_factor)
    (hcf : (config.circuit_failure_threshold : Int) ≤ cf) :
    1000 ≤ compute_cooldown_ms config cf := by
  unfold compute_cooldown_ms
  rw [if_neg (by omega)]
  have hpow : (1 : ℚ) ≤ config.circuit_cooldown_factor
      ^ (cf - (config.circuit_failure_threshold : Int)).toNat :=
    one_le_pow₀ hfactor
  have hbq : (1000 : ℚ) ≤ (config.circuit_cooldown_base_ms : ℚ) := by
    exact_mod_cast hbase
  have hmq : (1000 : ℚ) ≤ (config.circuit_cooldown_max_ms : ℚ) := by
    exact_mod_cast hmax
  have hprod : (1000 : ℚ) ≤ (config.circuit_cooldown_base_ms : ℚ)
      * config.circuit_cooldown_factor
        ^ (cf - (config.circuit_failure_threshold : Int)).toNat := by
    calc (1000 : ℚ) ≤ (config.circuit_cooldown_base_ms : ℚ) := hbq
      _ ≤ _ := le_mul_of_one_le_right (by positivity) hpow
  have hq : (1000 : ℚ) ≤ min ((config.circuit_cooldown_base_ms : ℚ)
      * config.circuit_cooldown_factor
        ^ (cf - (config.circuit_failure_threshold : Int)).toNat)
      (config.circuit_cooldown_max_ms : ℚ) := le_min hprod hmq
  unfold round_as_u64
  have hfloor : (1000 : Int) ≤ Int.floor (min
      ((config.circuit_cooldown_base_ms : ℚ)
        * config.circuit_cooldown_factor
          ^ (cf - (config.circuit_failure_threshold : Int)).toNat)
      (config.circuit_cooldown_max_ms : ℚ) + 1/2) := by
    apply Int.le_floor.mpr
    push_cast
    linarith
  show 1000 ≤ (Int.floor (min ((config.circuit_cooldown_base_ms : ℚ)
    * config.circuit_cooldown_factor
      ^ (cf - (config.circuit_failure_threshold : Int)).toNat)
    (config.circuit_cooldown_max_ms : ℚ) + 1/2)).toNat
  omega

/-- Helper: adding at least one second and truncating to the whole second
still lands strictly after the starting instant. -/
theorem lt_format_utc_add (now c : Nat) (hc : 1000 ≤ c) :
    now < format_utc (now + c) := by
  unfold format_utc
  have h1 := Nat.div_add_mod now 1000
  have h2 : (now + 1000) / 1000 = now / 1000 + 1 :=
    Nat.add_div_right now (by norm_num)
  have h4 : (now + 1000) / 1000 ≤ (now + c) / 1000 :=
    Nat.div_le_div_right (by omega)
  omega

/-- Configuration for the C6 counterexample: a zero base cooldown, as the
environment permits (`RECEIVER_CIRCUIT_COOLDOWN_BASE_MS=0` parses and is not
clamped), with the threshold at its minimum. -/
def c6_config : DispatcherConfig :=
  { circuit_failure_threshold := 1, circuit_cooldown_base_ms := 0,
    circuit_cooldown_factor := 2, circuit_cooldown_max_ms := 600000,
    max_attempts := 5 }

/-- The circuit row produced by the C6 counterexample. -/
def c6_row : CircuitRow :=
  { endpoint_id := 7, state := .Open, open_until := some (.valid 0),
    consecutive_failures := 1, last_failure_at := some (.valid 0) }

/-- C6 counterexample: with a configured base cooldown of 0 ms the first
retryable failure at `now = 0` opens the circuit with
`open_until = now + 0 = now`, which is not strictly after the failure
timestamp — refuting the unconditional claim. -/
theorem C6_counterexample_zero_cooldown :
    update_circuit_on_failure [] c6_config 7 0 true
      = ([c6_row], some c6_row) ∧
    c6_row.state = .Open ∧
    (∀ t, c6_row.open_until = some (.valid t) → ¬ 0 < t) := by
  have hcool : compute_cooldown_ms c6_config 1 = 0 := by
    norm_num [compute_cooldown_ms, round_as_u64, c6_config]
  simp only [c6_config] at hcool
  refine ⟨?_, rfl, ?_⟩
  · simp [update_circuit_on_failure, circuit_for, upsert_circuit, hcool,
      format_utc, c6_config, c6_row]
  · intro t ht
    have : t = 0 := by
      have := ht
      simp [c6_row] at this
      omega
    omega

/-- C6 (amended): immediately after `update_circuit_on_failure` with
`retryable = true`, the endpoint's circuit row satisfies `state = open` iff
`consecutive_failures >= circuit_failure_threshold` — unconditionally, for
every configuration; and, provided the configured cooldowns are at least one
second and the factor at least one (as the validated defaults are), when
open, `open_until` is strictly after the failure instant `now`. -/
theorem C6_circuit_failure_invariant (circuits : List CircuitRow)
    (config : DispatcherConfig) (endpoint_id now : Nat) :
    ∀ circuits' row,
      update_circuit_on_failure circuits config endpoint_id now true
        = (circuits', some row) →
      (row.state = .Open ↔
        (config.circuit_failure_threshold : Int) ≤ row.consecutive_failures) ∧
      circuit_for circuits' endpoint_id = some row ∧
      (1000 ≤ config.circuit_cooldown_base_ms →
        1000 ≤ config.circuit_cooldown_max_ms →
        1 ≤ config.circuit_cooldown_factor →
        row.state = .Open →
        ∃ t, row.open_until = some (.valid t) ∧ now < t) := by
  intro circuits' row h
  simp only [update_circuit_on_failure, Bool.not_true, Bool.false_eq_true,
    if_false, Prod.mk.injEq, Option.some.injEq] at h
  obtain ⟨hcircuits, hrow⟩ := h
  by_cases hopen : (config.circuit_failure_threshold : Int)
      ≤ ((circuit_for circuits endpoint_id).map
        (fun c => c.consecutive_failures)).getD 0 + 1
  · have hdec : decide ((config.circuit_failure_threshold : Int)
        ≤ ((circuit_for circuits endpoint_id).map
          (fun c => c.consecutive_failures)).getD 0 + 1) = true :=
      decide_eq_true hopen
    rw [hdec] at hcircuits hrow
    simp only [reduceIte] at hcircuits hrow
    subst hrow
    refine ⟨by simpa using hopen, ?_, ?_⟩
    · rw [← hcircuits]
      exact circuit_for_upsert circuits _
    · intro hbase hmax hfactor _
      refine ⟨_, rfl, ?_⟩
      apply lt_format_utc_add
      exact compute_cooldown_ms_ge_1000 config _ hbase hmax hfactor hopen
  · have hdec : decide ((config.circuit_failure_threshold : Int)
        ≤ ((circuit_for circuits endpoint_id).map
          (fun c => c.consecutive_failures)).getD 0 + 1) = false := by
      simpa using hopen
    rw [hdec] at hcircuits hrow
    simp only [Bool.false_eq_true, reduceIte] at hcircuits hrow
    subst hrow
    refine ⟨?_, ?_, ?_⟩
    · constructor
      · intro hcontr
        simp at hcontr
      · intro hle
        exact absurd (by simpa using hle) hopen
    · rw [← hcircuits]
      exact circuit_for_upsert circuits _
    · intro _hbase _hmax _hfactor hcontr
      simp at hcontr

/-- Existing circuit row for the C6 witness: two prior consecutive failures,
so the next failure reaches the default threshold of 3. -/
def c6w_prior : CircuitRow :=
  { endpoint_id := 7, state := .Closed, open_until := none,
    consecutive_failures := 2, last_failure_at := some (.valid 0) }

/-- The row the C6 witness expects after the third failure at `now = 500`
with the default configuration: open for 30000 ms. -/
def c6w_row : CircuitRow :=
  { endpoint_id := 7, state := .Open, open_until := some (.valid 30000),
    consecutive_failures := 3, last_failure_at := some (.valid 0) }

/-- Witness for the amended C6 at the default configuration. -/
theorem C6_circuit_failure_invariant_witness :
    (update_circuit_on_failure [c6w_prior] DispatcherConfig.default 7 500 true
        = ([c6w_row], some c6w_row)) ∧
    ((c6w_row.state = .Open ↔
        (DispatcherConfig.default.circuit_failure_threshold : Int)
          ≤ c6w_row.consecutive_failures) ∧
      circuit_for [c6w_row] 7 = some c6w_row ∧
      (1000 ≤ DispatcherConfig.default.circuit_cooldown_base_ms →
        1000 ≤ DispatcherConfig.default.circuit_cooldown_max_ms →
        1 ≤ DispatcherConfig.default.circuit_cooldown_factor →
        c6w_row.state = .Open →
        ∃ t, c6w_row.open_until = some (.valid t) ∧ 500 < t)) := by
  have hc : compute_cooldown_ms DispatcherConfig.default 3 = 30000 := by
    norm_num [compute_cooldown_ms, round_as_u64, DispatcherConfig.default]
    rfl
  have hup : update_circuit_on_failure [c6w_prior] DispatcherConfig.default
      7 500 true = ([c6w_row], some c6w_row) := by
    simp only [DispatcherConfig.default] at hc
    simp [update_circuit_on_failure, circuit_for, upsert_circuit, hc,
      format_utc, DispatcherConfig.default, c6w_prior, c6w_row]
  exact ⟨hup,
    C6_circuit_failure_invariant [c6w_prior] DispatcherConfig.default 7 500
      [c6w_row] c6w_row hup⟩

/-- C3: a `retry` report on an owned, unexpired lease whose stored attempts
satisfy `attempts + 1 >= max_attempts` is coerced to `dead`: the returned
final outcome is `dead`, the event row becomes `dead` with attempts
incremented and the lease cleared, and the stored `last_error` is exactly
`"max_attempts_exceeded (<max_attempts>): <error_message or 'unknown'>"`. -/
theorem C3_exhausted_retry_forces_dead (db : DB) (config : DispatcherConfig)
    (req : ReportRequest) (attempt_id now : Nat) (row : EventRow) (texp : Nat)
    (hfind : db.events.find? (fun e => e.id == req.event_id) = some row)
    (hleased : row.leased_by = some req.worker_id)
    (hexp : row.lease_expires_at = some (.valid texp))
    (hnow : now < texp)
    (houtcome : req.outcome = .Retry)
    (hexhausted : (config.max_attempts : Int) ≤ row.attempts + 1) :
    ∃ db' res,
      report_delivery db config req attempt_id now = .ok (db', res) ∧
      res.final_outcome = .Dead ∧
      db'.events.find? (fun e => e.id == req.event_id)
        = some { row with status := .Dead, attempts := row.attempts + 1,
                          next_attempt_at := none, lease_expires_at := none,
                          leased_by := none,
                          last_error := some (max_attempts_msg config req) }
      := by
  have hskip : report_delivery db config req attempt_id now
      = apply_report db config req row attempt_id now := by
    simp only [report_delivery, hfind, hleased, hexp, TS.parseRfc3339]
    rw [if_neg (by simp), if_neg (by omega)]
  have hpred := List.find?_some hfind
  have haff : db.events.any (fun e =>
      e.id == req.event_id && e.leased_by == some req.worker_id) = true := by
    refine List.any_eq_true.mpr ⟨row, List.mem_of_find?_eq_some hfind, ?_⟩
    simp [hpred, hleased]
  have hb : decide ((config.max_attempts : Int) ≤ row.attempts + 1) = true :=
    decide_eq_true hexhausted
  have houtdec : decide (req.outcome = ReportOutcome.Retry) = true := by
    rw [houtcome]
    exact decide_eq_true rfl
  rw [hskip]
  simp only [apply_report, houtcome, hb, houtdec, Bool.and_self, reduceIte,
    haff, Bool.not_true, Bool.false_eq_true, if_false]
  refine ⟨_, _, rfl, rfl, ?_⟩
  rw [find?_map_of_id_eq (fun e => by split <;> rfl)]
  rw [hfind]
  simp only [Option.map_some']
  congr 1
  rw [if_pos (by simp [hpred, hleased])]
  simp [max_attempts_msg]

/-- Concrete input witnessing C3: an in-flight event with 4 prior attempts
(max_attempts = 5) leased to `test-worker`. -/
def c3_event : EventRow :=
  { id := 7, endpoint_id := 10, replayed_from_event_id := none,
    provider := "stripe", headers := "{}", payload := "x",
    status := .InFlight, attempts := 4, received_at := 0,
    next_attempt_at := none, lease_expires_at := some (.valid 999999000),
    leased_by := some "test-worker", last_error := none }

/-- Concrete database for the C3 witness. -/
def c3_db : DB :=
  { endpoints := [(10, "https://example.com/webhook")],
    events := [c3_event], circuits := [], attempt_logs := [] }

/-- Concrete retry report for the C3 witness. -/
def c3_req : ReportRequest :=
  { worker_id := "test-worker", event_id := 7, outcome := .Retry,
    retryable := true, next_attempt_at := none,
    attempt := { started_at := "2026-01-01T00:00:00Z",
                 finished_at := "2026-01-01T00:00:01Z",
                 request_headers := "{}", request_body := "{}",
                 response_status := some 503, response_headers := none,
                 response_body := some "Service Unavailable",
                 error_kind := none, error_message := some "Timeout" } }

/-- Witness for C3 at the concrete input above. -/
theorem C3_exhausted_retry_forces_dead_witness :
    (c3_db.events.find? (fun e => e.id == c3_req.event_id) = some c3_event ∧
      c3_event.leased_by = some c3_req.worker_id ∧
      c3_event.lease_expires_at = some (.valid 999999000) ∧
      1000 < 999999000 ∧
      c3_req.outcome = .Retry ∧
      (DispatcherConfig.default.max_attempts : Int) ≤ c3_event.attempts + 1) ∧
    (∃ db' res,
      report_delivery c3_db DispatcherConfig.default c3_req 1 1000
        = .ok (db', res) ∧
      res.final_outcome = .Dead ∧
      db'.events.find? (fun e => e.id == c3_req.event_id)
        = some { c3_event with
                 status := .Dead, attempts := c3_event.attempts + 1,
                 next_attempt_at := none, lease_expires_at := none,
                 leased_by := none,
                 last_error :=
                   some (max_attempts_msg DispatcherConfig.default c3_req) })
    :=
  ⟨⟨by decide, by decide, by decide, by decide, by decide, by decide⟩,
   C3_exhausted_retry_forces_dead c3_db DispatcherConfig.default c3_req 1
     1000 c3_event 999999000 (by decide) (by decide) (by decide) (by decide)
     (by decide) (by decide)⟩

/-- Helper: `format_utc` truncates, so it never moves an instant later. -/
theorem format_utc_le (t : Nat) : format_utc t ≤ t := by
  unfold format_utc
  have := Nat.div_add_mod t 1000
  omega

/-- Helper: unpacking `col IS NULL OR col <= now_s` for a truncated bound. -/
theorem optTSNullOrLe_spec (o : Option TS) (b now : Nat) (hb : b ≤ now)
    (h : optTSNullOrLe o b = true) :
    o = none ∨ ∃ t, o = some (.valid t) ∧ t ≤ now := by
  cases o with
  | none => exact Or.inl rfl
  | some ts =>
    cases ts with
    | valid t =>
      refine Or.inr ⟨t, rfl, ?_⟩
      have : t ≤ b := by simpa [optTSNullOrLe, TS.sqlLe] using h
      omega
    | junk s => simp [optTSNullOrLe, TS.sqlLe] at h

/-- Helper: unpacking the full eligibility predicate of the `eligible` CTE
into the spec's clauses, with the truncated `now_s` weakened to the call
instant `now`. -/
theorem eligible_row_spec (circuits : List CircuitRow) (now_s now : Nat)
    (hns : now_s ≤ now) (e : EventRow)
    (h : eligible_row circuits now_s e = true) :
    (e.status = .Pending ∨ e.status = .Requeued) ∧
    (e.next_attempt_at = none ∨
      ∃ t, e.next_attempt_at = some (.valid t) ∧ t ≤ now) ∧
    (e.lease_expires_at = none ∨
      ∃ t, e.lease_expires_at = some (.valid t) ∧ t ≤ now) ∧
    (circuit_for circuits e.endpoint_id = none ∨
      ∃ c, circuit_for circuits e.endpoint_id = some c ∧
        (c.state = .Closed ∨
          (c.state = .Open ∧
            ∃ t, c.open_until = some (.valid t) ∧ t ≤ now))) := by
  unfold eligible_row at h
  rw [Bool.and_eq_true, Bool.and_eq_true, Bool.and_eq_true] at h
  obtain ⟨⟨⟨hstatus, hnext⟩, hlease⟩, hcirc⟩ := h
  refine ⟨?_, optTSNullOrLe_spec _ _ _ hns hnext,
    optTSNullOrLe_spec _ _ _ hns hlease, ?_⟩
  · rcases Bool.or_eq_true_iff.mp hstatus with h' | h'
    · exact Or.inl (of_decide_eq_true h')
    · exact Or.inr (of_decide_eq_true h')
  · cases hc : circuit_for circuits e.endpoint_id with
    | none => exact Or.inl rfl
    | some c =>
      rw [hc] at hcirc
      refine Or.inr ⟨c, rfl, ?_⟩
      rcases Bool.or_eq_true_iff.mp hcirc with h' | h'
      · exact Or.inl (of_decide_eq_true h')
      · rw [Bool.and_eq_true] at h'
        refine Or.inr ⟨of_decide_eq_true h'.1, ?_⟩
        cases hcu : c.open_until with
        | none => rw [hcu] at h'; simp [optTSLe] at h'
        | some ts =>
          cases ts with
          | valid t =>
            refine ⟨t, rfl, ?_⟩
            rw [hcu] at h'
            have : t ≤ now_s := by
              simpa [optTSLe, TS.sqlLe] using h'.2
            omega
          | junk s => rw [hcu] at h'; simp [optTSLe, TS.sqlLe] at h'

/-- C1: every row the claiming UPDATE of `lease_events` transitions to
`in_flight` (selected id plus re-checked status, schedule and lease clauses)
satisfies the full eligibility predicate — including the circuit clause,
which the UPDATE itself does not re-check but which cannot change between
the CTE and the UPDATE of the same statement — against the post-maintenance
state at update time: status pending or requeued, `next_attempt_at` null or
at most `now`, `lease_expires_at` null or at most `now`, and the endpoint's
circuit absent, closed, or open with `open_until` at most `now`.  Event ids
are assumed unique (primary key). -/
theorem C1_claimed_rows_satisfy_full_eligibility (db : DB)
    (req : LeaseRequest) (now : Nat)
    (hnodup : (db.events.map (fun e => e.id)).Nodup) :
    ∀ e ∈ (lease_maintain db (format_utc now)).events,
      ((eligible_ids (lease_maintain db (format_utc now)) req
          (format_utc now)).contains e.id ∧
        recheck_row (format_utc now) e) →
      ((e.status = .Pending ∨ e.status = .Requeued) ∧
        (e.next_attempt_at = none ∨
          ∃ t, e.next_attempt_at = some (.valid t) ∧ t ≤ now) ∧
        (e.lease_expires_at = none ∨
          ∃ t, e.lease_expires_at = some (.valid t) ∧ t ≤ now) ∧
        (circuit_for (lease_maintain db (format_utc now)).circuits
            e.endpoint_id = none ∨
          ∃ c, circuit_for (lease_maintain db (format_utc now)).circuits
              e.endpoint_id = some c ∧
            (c.state = .Closed ∨
              (c.state = .Open ∧
                ∃ t, c.open_until = some (.valid t) ∧ t ≤ now)))) := by
  intro e he hcond
  obtain ⟨hcontains, _hre⟩ := hcond
  have hmem : e.id ∈ eligible_ids (lease_maintain db (format_utc now)) req
      (format_utc now) := by
    simpa using hcontains
  obtain ⟨e', he'take, hid⟩ := List.mem_map.mp hmem
  have he'sorted := (List.take_sublist _ _).subset he'take
  have he'filter : e' ∈ (lease_maintain db (format_utc now)).events.filter
      (eligible_row (lease_maintain db (format_utc now)).circuits
        (format_utc now)) :=
    (List.perm_insertionSort _ _).subset he'sorted
  obtain ⟨he'mem, he'el⟩ := List.mem_filter.mp he'filter
  have hids : ((lease_maintain db (format_utc now)).events.map
      (fun e => e.id)) = db.events.map (fun e => e.id) := by
    simp only [lease_maintain, List.map_map]
    apply List.map_congr_left
    intro a _
    show (requeue_expired_row (format_utc now) a).id = a.id
    unfold requeue_expired_row
    split <;> rfl
  have hnodup' : (((lease_maintain db (format_utc now)).events.map
      (fun e => e.id))).Nodup := by
    rw [hids]
    exact hnodup
  have heq : e' = e := List.inj_on_of_nodup_map hnodup' he'mem he hid
  subst heq
  exact eligible_row_spec _ _ now (format_utc_le now) e' he'el

/-- Concrete database for the C1 witness: one eligible pending event and a
closed circuit row for its endpoint. -/
def c1_db : DB :=
  { endpoints := [(10, "https://example.com/webhook")],
    events := [{ id := 1, endpoint_id := 10, replayed_from_event_id := none,
                 provider := "stripe", headers := "{}", payload := "x",
                 status := .Pending, attempts := 0, received_at := 100,
                 next_attempt_at := none, lease_expires_at := none,
                 leased_by := none, last_error := none }],
    circuits := [{ endpoint_id := 10, state := .Closed, open_until := none,
                   consecutive_failures := 1,
                   last_failure_at := some (.valid 0) }],
    attempt_logs := [] }

/-- Concrete lease request for the C1 witness. -/
def c1_req : LeaseRequest :=
  { limit := 10, lease_ms := 30000, worker_id := "worker-1" }

/-- Witness for C1 at the concrete input above (now = 1000 ms). -/
theorem C1_claimed_rows_satisfy_full_eligibility_witness :
    ((c1_db.events.map (fun e => e.id)).Nodup) ∧
    (∀ e ∈ (lease_maintain c1_db (format_utc 1000)).events,
      ((eligible_ids (lease_maintain c1_db (format_utc 1000)) c1_req
          (format_utc 1000)).contains e.id ∧
        recheck_row (format_utc 1000) e) →
      ((e.status = .Pending ∨ e.status = .Requeued) ∧
        (e.next_attempt_at = none ∨
          ∃ t, e.next_attempt_at = some (.valid t) ∧ t ≤ 1000) ∧
        (e.lease_expires_at = none ∨
          ∃ t, e.lease_expires_at = some (.valid t) ∧ t ≤ 1000) ∧
        (circuit_for (lease_maintain c1_db (format_utc 1000)).circuits
            e.endpoint_id = none ∨
          ∃ c, circuit_for (lease_maintain c1_db (format_utc 1000)).circuits
              e.endpoint_id = some c ∧
            (c.state = .Closed ∨
              (c.state = .Open ∧
                ∃ t, c.open_until = some (.valid t) ∧ t ≤ 1000))))) :=
  ⟨by decide,
   C1_claimed_rows_satisfy_full_eligibility c1_db c1_req 1000 (by decide)⟩

instance : IsTrans (EventRow × String) list_events_desc := by
  constructor
  intro a b c hab hbc
  unfold list_events_desc at *
  rcases hab with h1 | ⟨h1, h1'⟩ <;> rcases hbc with h2 | ⟨h2, h2'⟩ <;> omega

instance : IsTotal (EventRow × String) list_events_desc := by
  constructor
  intro a b
  unfold list_events_desc
  omega

/-- Helper: every emitted row of `list_events` is one of the matching joined
rows. -/
theorem list_events_emitted_subset (db : DB) (params : ListEventsParams) :
    list_events_emitted db params ⊆ list_events_matching db params := by
  intro r hr
  have h1 : r ∈ list_events_rows db params :=
    (List.take_sublist _ _).subset hr
  have h2 : r ∈ List.insertionSort list_events_desc
      (list_events_matching db params) :=
    (List.take_sublist _ _).subset h1
  exact (List.perm_insertionSort _ _).subset h2

/-- Helper: a matching joined row passes the WHERE clause. -/
theorem list_events_matching_filter (db : DB) (params : ListEventsParams)
    (r : EventRow × String) (hr : r ∈ list_events_matching db params) :
    list_events_filter params r.1 = true := by
  unfold list_events_matching at hr
  obtain ⟨e, _he, hsome⟩ := List.mem_filterMap.mp hr
  by_cases hf : list_events_filter params e
  · rw [if_pos hf] at hsome
    obtain ⟨ep, _hfind, heq⟩ := Option.map_eq_some'.mp hsome
    rw [← heq]
    exact hf
  · rw [if_neg hf] at hsome
    cases hsome

/-- Helper: the length of the fetched page. -/
theorem list_events_rows_length (db : DB) (params : ListEventsParams) :
    (list_events_rows db params).length
      = min (params.limit + 1).toNat (list_events_matching db params).length
    := by
  unfold list_events_rows
  rw [List.length_take]
  rw [(List.perm_insertionSort list_events_desc
    (list_events_matching db params)).length_eq]

/-- C7: `list_events` keyset pagination.  With the transport-guaranteed
`limit >= 1`: (a) when a `before` cursor is given every returned row
satisfies `received_at < before.received_at` or equal `received_at` with
`id < before.id`; (b) at most `limit` rows are returned; (c) they are in
`received_at DESC, id DESC` order; (d) `next_before` is present iff more
than `limit` rows match, and then it is the `(received_at, id)` pair of the
last returned row. -/
theorem C7_list_events_keyset_pagination (db : DB)
    (params : ListEventsParams) (hlimit : 1 ≤ params.limit) :
    (∀ item ∈ (list_events db params).events, ∀ cursor,
      params.before = some cursor →
        item.event.received_at < cursor.received_at ∨
          (item.event.received_at = cursor.received_at ∧
            item.event.id < cursor.id)) ∧
    (list_events db params).events.length ≤ params.limit.toNat ∧
    (list_events db params).events.Pairwise (fun a b =>
      b.event.received_at < a.event.received_at ∨
        (a.event.received_at = b.event.received_at ∧
          b.event.id ≤ a.event.id)) ∧
    ((list_events db params).next_before.isSome ↔
      params.limit.toNat < (list_events_matching db params).length) ∧
    (∀ cursor, (list_events db params).next_before = some cursor →
      ∃ item, (list_events db params).events.getLast? = some item ∧
        cursor.received_at = item.event.received_at ∧
        cursor.id = item.event.id) := by
  refine ⟨?_, ?_, ?_, ?_, ?_⟩
  · intro item hitem cursor hcursor
    obtain ⟨r, hr, hri⟩ := List.mem_map.mp hitem
    have hmatch := list_events_emitted_subset db params hr
    have hfilter := list_events_matching_filter db params r hmatch
    unfold list_events_filter at hfilter
    rw [Bool.and_eq_true, Bool.and_eq_true, Bool.and_eq_true] at hfilter
    have hbefore := hfilter.2
    rw [hcursor] at hbefore
    have hev : item.event = r.1 := by rw [← hri]; rfl
    rw [hev]
    rcases Bool.or_eq_true_iff.mp hbefore with h | h
    · exact Or.inl (of_decide_eq_true h)
    · rw [Bool.and_eq_true] at h
      exact Or.inr ⟨of_decide_eq_true h.1, of_decide_eq_true h.2⟩
  · show ((list_events_emitted db params).map (list_events_item db)).length
      ≤ params.limit.toNat
    rw [List.length_map]
    unfold list_events_emitted
    rw [List.length_take]
    by_cases h : list_events_has_more db params = true
    · rw [if_pos h]
      omega
    · rw [if_neg h]
      unfold list_events_has_more at h
      simp only [decide_eq_true_eq, Nat.not_lt] at h
      omega
  · show (((list_events_emitted db params).map
      (list_events_item db)).Pairwise _)
    rw [List.pairwise_map]
    have hs : List.Pairwise list_events_desc
        (List.insertionSort list_events_desc
          (list_events_matching db params)) :=
      List.sorted_insertionSort list_events_desc _
    have h1 : List.Pairwise list_events_desc (list_events_rows db params) :=
      List.Pairwise.sublist (List.take_sublist _ _) hs
    have h2 : List.Pairwise list_events_desc
        (list_events_emitted db params) :=
      List.Pairwise.sublist (List.take_sublist _ _) h1
    exact h2.imp (fun {a b} h => h)
  · show (if list_events_has_more db params then _ else none).isSome
      ↔ params.limit.toNat < (list_events_matching db params).length
    by_cases h : list_events_has_more db params = true
    · rw [if_pos h]
      unfold list_events_has_more at h
      rw [list_events_rows_length] at h
      simp only [decide_eq_true_eq] at h
      constructor
      · intro _
        omega
      · intro _
        have hne : list_events_emitted db params ≠ [] := by
          intro hemp
          have hlen0 : (list_events_emitted db params).length = 0 := by
            rw [hemp]
            rfl
          unfold list_events_emitted list_events_has_more at hlen0
          rw [List.length_take, list_events_rows_length] at hlen0
          rw [if_pos (by
            simp only [decide_eq_true_eq]
            omega)] at hlen0
          omega
        cases hl : (list_events_emitted db params).getLast? with
        | none => exact absurd (List.getLast?_eq_none_iff.mp hl) hne
        | some r => rfl
    · rw [if_neg h]
      unfold list_events_has_more at h
      rw [list_events_rows_length] at h
      simp only [decide_eq_true_eq, Nat.not_lt] at h
      simp only [Option.isSome_none, Bool.false_eq_true, false_iff,
        Nat.not_lt]
      omega
  · intro cursor hcursor
    by_cases h : list_events_has_more db params = true
    · rw [list_events] at hcursor
      simp only [if_pos h] at hcursor
      obtain ⟨r, hlast, hc⟩ := Option.map_eq_some'.mp hcursor
      refine ⟨list_events_item db r, ?_, ?_, ?_⟩
      · show ((list_events_emitted db params).map
          (list_events_item db)).getLast? = _
        rw [List.getLast?_map, hlast]
        rfl
      · rw [← hc]
        rfl
      · rw [← hc]
        rfl
    · rw [list_events] at hcursor
      simp only [if_neg h] at hcursor
      cases hcursor

/-- Concrete database for the C7 witness: four events with a duplicate
`received_at` to exercise the id tie-break. -/
def c7_db : DB :=
  { endpoints := [(10, "https://example.com/webhook")],
    events :=
      [{ id := 1, endpoint_id := 10, replayed_from_event_id := none,
         provider := "stripe", headers := "{}", payload := "a",
         status := .Pending, attempts := 0, received_at := 100,
         next_attempt_at := none, lease_expires_at := none,
         leased_by := none, last_error := none },
       { id := 2, endpoint_id := 10, replayed_from_event_id := none,
         provider := "stripe", headers := "{}", payload := "b",
         status := .Delivered, attempts := 1, received_at := 200,
         next_attempt_at := none, lease_expires_at := none,
         leased_by := none, last_error := none },
       { id := 3, endpoint_id := 10, replayed_from_event_id := none,
         provider := "github", headers := "{}", payload := "c",
         status := .Pending, attempts := 0, received_at := 200,
         next_attempt_at := none, lease_expires_at := none,
         leased_by := none, last_error := none },
       { id := 4, endpoint_id := 10, replayed_from_event_id := none,
         provider := "stripe", headers := "{}", payload := "d",
         status := .Dead, attempts := 5, received_at := 300,
         next_attempt_at := none, lease_expires_at := none,
         leased_by := none, last_error := some "boom" }],
    circuits := [], attempt_logs := [] }

/-- Concrete parameters for the C7 witness: one row per page, starting
before the cursor `(200, 3)`. -/
def c7_params : ListEventsParams :=
  { limit := 1, before := some { received_at := 200, id := 3 },
    status := none, endpoint_id := none, provider := none }

/-- Witness for C7 at the concrete input above. -/
theorem C7_list_events_keyset_pagination_witness :
    (1 ≤ c7_params.limit) ∧
    ((∀ item ∈ (list_events c7_db c7_params).events, ∀ cursor,
        c7_params.before = some cursor →
          item.event.received_at < cursor.received_at ∨
            (item.event.received_at = cursor.received_at ∧
              item.event.id < cursor.id)) ∧
      (list_events c7_db c7_params).events.length ≤ c7_params.limit.toNat ∧
      (list_events c7_db c7_params).events.Pairwise (fun a b =>
        b.event.received_at < a.event.received_at ∨
          (a.event.received_at = b.event.received_at ∧
            b.event.id ≤ a.event.id)) ∧
      ((list_events c7_db c7_params).next_before.isSome ↔
        c7_params.limit.toNat < (list_events_matching c7_db c7_params).length)
        ∧
      (∀ cursor, (list_events c7_db c7_params).next_before = some cursor →
        ∃ item, (list_events c7_db c7_params).events.getLast? = some item ∧
          cursor.received_at = item.event.received_at ∧
          cursor.id = item.event.id)) :=
  ⟨by decide,
   C7_list_events_keyset_pagination c7_db c7_params (by decide)⟩
